import Mathlib

/-!
Shallow embedding of `routes/analytics.js` (backend_delivery): three
admin-gated analytics endpoints over an order collection.

Modelling conventions:
* Time is an integer count of milliseconds since the epoch.  The wall clock
  `now` and the local-midnight instant `startOfToday` (what JS
  `now.setHours(0,0,0,0)` yields) are explicit parameters; calendar days are
  fixed 24-hour periods.
* JavaScript numbers are modelled as exact rationals extended with `NaN` and
  the two infinities (`JsNum`).  Monetary totals are exact rationals;
  `toFixed(2)` is ECMA-262 rounding (nearest multiple of 1/100, larger
  candidate on ties) applied to the exact value.
* The data store executes queries in program order; `DB.failAt = some i`
  makes the i-th query of a request throw `DB.failMsg`, modelling a
  data-store failure at any point of a handler.
* A handler body is `Except String Response` (the `try` block); `catchWrap`
  is the `catch` clause turning a thrown error into the 500 response.
-/

namespace BackendDelivery

/-- Milliseconds in one calendar day. -/
def msPerDay : Int := 86400000

/-- The helper `getDateRange` of `routes/analytics.js`.  `range` is `none`
when the function is applied to JS `undefined`; `startOfToday` is the instant
produced by `now.setHours(0,0,0,0)` and the `"7days"` branch is
`new Date(now.setDate(now.getDate() - 7))`, i.e. `now` minus seven calendar
days.  The fallback branch is `new Date(0)`, the epoch origin. -/
def getDateRange (range : Option String) (now startOfToday : Int) : Int :=
  if range = some "today" then startOfToday
  else if range = some "7days" then now - 7 * msPerDay
  else 0

/-- JavaScript number values reachable in this module: a finite value
(exact rational), `NaN`, or a signed infinity. -/
inductive JsNum where
  | num (q : ℚ)
  | nan
  | inf
  | ninf
  deriving DecidableEq, Repr

/-- JS subtraction on `JsNum`. -/
def jsSub : JsNum → JsNum → JsNum
  | .num a, .num b => .num (a - b)
  | .inf, .num _ => .inf
  | .num _, .inf => .ninf
  | .ninf, .num _ => .ninf
  | .num _, .ninf => .inf
  | .inf, .ninf => .inf
  | .ninf, .inf => .ninf
  | _, _ => .nan

/-- JS multiplication on `JsNum`. -/
def jsMul : JsNum → JsNum → JsNum
  | .num a, .num b => .num (a * b)
  | .num a, .inf => if a = 0 then .nan else if 0 < a then .inf else .ninf
  | .inf, .num a => if a = 0 then .nan else if 0 < a then .inf else .ninf
  | .num a, .ninf => if a = 0 then .nan else if 0 < a then .ninf else .inf
  | .ninf, .num a => if a = 0 then .nan else if 0 < a then .ninf else .inf
  | .inf, .inf => .inf
  | .ninf, .ninf => .inf
  | .inf, .ninf => .ninf
  | .ninf, .inf => .ninf
  | _, _ => .nan

/-- JS division on `JsNum` (division by zero yields an infinity or `NaN`;
the sign of a zero divisor is not modelled, negative zero being outside the
rationals). -/
def jsDiv : JsNum → JsNum → JsNum
  | .num a, .num b =>
      if b = 0 then (if a = 0 then .nan else if 0 < a then .inf else .ninf)
      else .num (a / b)
  | .num _, .inf => .num 0
  | .num _, .ninf => .num 0
  | .inf, .num b => if 0 ≤ b then .inf else .ninf
  | .ninf, .num b => if 0 ≤ b then .ninf else .inf
  | _, _ => .nan

/-- JS `Math.ceil` on `JsNum`. -/
def jsCeil : JsNum → JsNum
  | .num q => .num (⌈q⌉ : ℚ)
  | x => x

/-- Value of a list of decimal digits. -/
def digitsToNat (ds : List Char) : Nat :=
  ds.foldl (fun a c => 10 * a + (c.toNat - 48)) 0

/-- Model of JS `parseInt` on base-10 input: skip leading whitespace, read
an optional sign, then the longest prefix of decimal digits, ignoring
everything after it; `NaN` when no digit is found.  (Radix prefixes such as
`0x` are not modelled; no claim exercises them.) -/
def parseIntJS (s : String) : JsNum :=
  let cs := s.data.dropWhile Char.isWhitespace
  let sgnRest : Int × List Char :=
    match cs with
    | '-' :: r => (-1, r)
    | '+' :: r => (1, r)
    | r => (1, r)
  let ds := sgnRest.2.takeWhile Char.isDigit
  if ds.isEmpty then .nan else .num ((sgnRest.1 * (digitsToNat ds : Int) : Int) : ℚ)

/-- Model of `parseFloat(x.toFixed(2))` on the exact value of `x`: the
nearest multiple of 1/100, the larger candidate on ties (ECMA-262 `toFixed`
picks the larger `n` when two are equally close). -/
def toFixed2 (q : ℚ) : ℚ := (⌊q * 100 + 1 / 2⌋ : ℚ) / 100

/-- A stored user document (fields read by this module). -/
structure User where
  id : Nat
  name : String
  email : String
  role : String
  deriving DecidableEq, Repr

/-- A stored order document (fields read by this module). -/
structure Order where
  user_id : Nat
  total : ℚ
  status : String
  createdAt : Int
  deriving DecidableEq, Repr

/-- The data-store collaborator: the order and user collections plus a
failure model.  `failAt = some i` makes the i-th store query of a request
(numbered from 0 in program order within each handler) throw `failMsg`. -/
structure DB where
  orders : List Order
  users : List User
  failAt : Option Nat := none
  failMsg : String := ""
  deriving Repr

/-- Execute the `i`-th store query of a request, producing `a` unless the
failure model makes this query throw. -/
def runQuery {α : Type} (db : DB) (i : Nat) (a : α) : Except String α :=
  if db.failAt = some i then .error db.failMsg else .ok a

/-- The match stage used by every query: `createdAt: { $gte: startDate }`. -/
def inRange (startDate : Int) (o : Order) : Bool := startDate ≤ o.createdAt

/-- Orders matching the date filter. -/
def matchingOrders (db : DB) (startDate : Int) : List Order :=
  db.orders.filter (inRange startDate)

/-- The stage `$group { _id: null, total: { $sum: "$total" } }`: one group carrying the
sum when the input is nonempty, no group at all when it is empty. -/
def revenueAggregate (l : List Order) : List ℚ :=
  if l.isEmpty then [] else [(l.map Order.total).sum]

/-- The stage `$group { _id: "$status", count: { $sum: 1 } }`: one `(status, count)`
pair per distinct status value among the input records. -/
def statusAggregate (l : List Order) : List (String × Nat) :=
  ((l.map Order.status).dedup).map (fun s => (s, l.countP (fun o => o.status == s)))

/-- The lookup `statusBreakdown.find(s => s._id === k)?.count || 0`. -/
def statusCount (bd : List (String × Nat)) (k : String) : Nat :=
  match bd.find? (fun p => p.1 == k) with
  | some p => p.2
  | none => 0

/-- Summary block of the `/summary` response. -/
structure Summary where
  totalOrders : Nat
  totalRevenue : ℚ
  activeUsers : Nat
  deriving DecidableEq, Repr

/-- Status-count block of the `/summary` response. -/
structure OrderStatusCounts where
  completed : Nat
  cancelled : Nat
  placed : Nat
  preparing : Nat
  deriving DecidableEq, Repr

/-- One point of the `/orders-chart` response.  The `date` field models the
`%Y-%m-%d` key as a day index (see `dayKey`). -/
structure ChartPoint where
  date : Int
  orders : Nat
  revenue : ℚ
  deriving DecidableEq, Repr

/-- The projection `populate("user_id", "name email")` exposes. -/
structure NameEmail where
  name : String
  email : String
  deriving DecidableEq, Repr

/-- An order record as returned by `/orders`: the user reference resolved to
`{name, email}` only (or `none` when unresolvable). -/
structure PopulatedOrder where
  user_id : Option NameEmail
  total : ℚ
  status : String
  createdAt : Int
  deriving DecidableEq, Repr

/-- Pagination envelope of the `/orders` response.  `currentPage`,
`totalPages` and `limit` are JS numbers and may be `NaN`. -/
structure Pagination where
  currentPage : JsNum
  totalPages : JsNum
  totalOrders : Nat
  limit : JsNum
  deriving DecidableEq, Repr

/-- A JSON response body of this module. -/
inductive Body where
  | summaryB (summary : Summary) (orderStatus : OrderStatusCounts)
  | chartB (chartData : List ChartPoint)
  | ordersB (orders : List PopulatedOrder) (pagination : Pagination)
  | errorB (message : String) (error : Option String)
  deriving DecidableEq, Repr

/-- An HTTP response: status code and JSON body. -/
structure Response where
  status : Nat
  body : Body
  deriving DecidableEq, Repr

/-- Message of the `TypeError` thrown when `req.user` is absent and
`req.user.role` is read (Node wording, quotes around the field name elided). -/
def undefinedRoleMsg : String := "Cannot read properties of undefined (reading role)"

/-- The `catch` clause shared by the three handlers: a thrown error becomes
`res.status(500).json({ message: "Server error", error: error.message })`. -/
def catchWrap (r : Except String Response) : Response :=
  match r with
  | .ok resp => resp
  | .error e => ⟨500, .errorB "Server error" (some e)⟩

/-- The `try` block of `GET /summary`.  `user?` is `req.user` (`none` when no
authenticated caller is attached; reading `.role` then throws).  Store
queries in program order: 0 `countDocuments`, 1 revenue `aggregate`,
2 `distinct("user_id")`, 3 status `aggregate`. -/
def trySummary (user? : Option User) (dateRange? : Option String)
    (now startOfToday : Int) (db : DB) : Except String Response :=
  match user? with
  | none => .error undefinedRoleMsg
  | some user =>
    if user.role ≠ "admin" then .ok ⟨403, .errorB "Admin access required" none⟩
    else
      let startDate := getDateRange (some (dateRange?.getD "7days")) now startOfToday
      let matching := matchingOrders db startDate
      (runQuery db 0 matching.length).bind fun totalOrders =>
      (runQuery db 1 (revenueAggregate matching)).bind fun revenueResult =>
      let totalRevenue : ℚ := match revenueResult with | [] => 0 | t :: _ => t
      (runQuery db 2 ((matching.map Order.user_id).dedup)).bind fun activeUsers =>
      (runQuery db 3 (statusAggregate matching)).bind fun statusBreakdown =>
      .ok ⟨200, .summaryB
        ⟨totalOrders, toFixed2 totalRevenue, activeUsers.length⟩
        ⟨statusCount statusBreakdown "Delivered", 0,
         statusCount statusBreakdown "Placed",
         statusCount statusBreakdown "Preparing"⟩⟩

/-- Handler of `GET /summary`: the `try` block wrapped in the `catch` clause. -/
def summaryHandler (user? : Option User) (dateRange? : Option String)
    (now startOfToday : Int) (db : DB) : Response :=
  catchWrap (trySummary user? dateRange? now startOfToday db)

/-- Calendar-day key of a timestamp: `$dateToString` with format `%Y-%m-%d`
is modelled as the day index since the epoch (floor division), so two
timestamps share a key iff they fall on the same calendar day, and the
chronological order of keys matches the lexicographic order of the formatted
strings. -/
def dayKey (t : Int) : Int := t.fdiv msPerDay

/-- One group of the `/orders-chart` aggregation. -/
structure DayGroup where
  id : Int
  count : Nat
  revenue : ℚ
  deriving DecidableEq, Repr

/-- The `$sort { _id: 1 }` order on day groups. -/
def dayGroupLe (a b : DayGroup) : Prop := a.id ≤ b.id

instance : DecidableRel dayGroupLe := fun a b => Int.decLe a.id b.id

instance : IsTotal DayGroup dayGroupLe := ⟨fun a b => Int.le_total a.id b.id⟩

instance : IsTrans DayGroup dayGroupLe := ⟨fun _ _ _ h1 h2 => le_trans h1 h2⟩

/-- The `/orders-chart` aggregation: group the matching orders by calendar
day (per-day count and revenue sum), then `$sort { _id: 1 }`. -/
def chartAggregate (l : List Order) : List DayGroup :=
  (((l.map (fun o => dayKey o.createdAt)).dedup).map (fun d =>
    { id := d
      count := l.countP (fun o => dayKey o.createdAt == d)
      revenue := ((l.filter (fun o => dayKey o.createdAt == d)).map Order.total).sum })
   ).insertionSort dayGroupLe

/-- The `try` block of `GET /orders-chart`.  One store query (index 0): the
grouping aggregate. -/
def tryOrdersChart (user? : Option User) (dateRange? : Option String)
    (now startOfToday : Int) (db : DB) : Except String Response :=
  match user? with
  | none => .error undefinedRoleMsg
  | some user =>
    if user.role ≠ "admin" then .ok ⟨403, .errorB "Admin access required" none⟩
    else
      let startDate := getDateRange (some (dateRange?.getD "7days")) now startOfToday
      let matching := matchingOrders db startDate
      (runQuery db 0 (chartAggregate matching)).bind fun ordersOverTime =>
      .ok ⟨200, .chartB (ordersOverTime.map (fun g =>
        { date := g.id, orders := g.count, revenue := toFixed2 g.revenue }))⟩

/-- Handler of `GET /orders-chart`: the `try` block wrapped in the `catch` clause. -/
def ordersChartHandler (user? : Option User) (dateRange? : Option String)
    (now startOfToday : Int) (db : DB) : Response :=
  catchWrap (tryOrdersChart user? dateRange? now startOfToday db)

/-- The `sort({ createdAt: -1 })` order: newest first. -/
def newestFirst (a b : Order) : Prop := b.createdAt ≤ a.createdAt

instance : DecidableRel newestFirst := fun a b => Int.decLe b.createdAt a.createdAt

instance : IsTotal Order newestFirst := ⟨fun a b => Int.le_total b.createdAt a.createdAt⟩

instance : IsTrans Order newestFirst := ⟨fun _ _ _ h1 h2 => le_trans h2 h1⟩

/-- Matching orders sorted by creation timestamp descending. -/
def sortDesc (l : List Order) : List Order := l.insertionSort newestFirst

/-- Value of `parseInt(page)` with the destructuring default `page = 1`. -/
def pageNum (page? : Option String) : JsNum :=
  match page? with
  | none => .num 1
  | some s => parseIntJS s

/-- Value of `parseInt(limit)` with the destructuring default `limit = 10`. -/
def limitNum (limit? : Option String) : JsNum :=
  match limit? with
  | none => .num 10
  | some s => parseIntJS s

/-- The computation `skip = (parseInt(page) - 1) * parseInt(limit)`. -/
def ordersSkip (pageN limitN : JsNum) : JsNum := jsMul (jsSub pageN (.num 1)) limitN

/-- Number of records the `.skip(...)` stage discards.  Finite values floor
and clamp at 0; `NaN` and the infinities are modelled as 0 (no claim depends
on such a value reaching the store). -/
def jsToCount : JsNum → Nat
  | .num q => (⌊q⌋).toNat
  | _ => 0

/-- The `.limit(n)` stage: `n = 0` means no limit (MongoDB semantics), a
negative `n` takes `|n|` records; `NaN` and the infinities are modelled as
no limit (no claim depends on such a value reaching the store). -/
def applyLimit {α : Type} (l : List α) : JsNum → List α
  | .num q => if q = 0 then l else l.take (⌊q⌋).natAbs
  | _ => l

/-- The stage `.populate("user_id", "name email")`: resolve the user reference,
exposing only `name` and `email`; an unresolvable reference becomes `none`
(Mongoose `null`). -/
def populateOrder (users : List User) (o : Order) : PopulatedOrder :=
  { user_id := (users.find? (fun u => u.id == o.user_id)).map (fun u => ⟨u.name, u.email⟩)
    total := o.total
    status := o.status
    createdAt := o.createdAt }

/-- The filter built by `GET /orders`: date lower bound, plus a status
equality unless the requested status is `"all"`. -/
def ordersFilter (startDate : Int) (status : String) (o : Order) : Bool :=
  inRange startDate o && (status == "all" || o.status == status)

/-- The `try` block of `GET /orders`.  Store queries in program order:
0 the `find().sort().skip().limit().populate()` chain, 1 `countDocuments`. -/
def tryOrdersList (user? : Option User)
    (page? limit? status? dateRange? : Option String)
    (now startOfToday : Int) (db : DB) : Except String Response :=
  match user? with
  | none => .error undefinedRoleMsg
  | some user =>
    if user.role ≠ "admin" then .ok ⟨403, .errorB "Admin access required" none⟩
    else
      let pageN := pageNum page?
      let limitN := limitNum limit?
      let status := status?.getD "all"
      let startDate := getDateRange (some (dateRange?.getD "7days")) now startOfToday
      let skip := ordersSkip pageN limitN
      let matching := db.orders.filter (ordersFilter startDate status)
      (runQuery db 0
        ((applyLimit ((sortDesc matching).drop (jsToCount skip)) limitN).map
          (populateOrder db.users))).bind fun orders =>
      (runQuery db 1 matching.length).bind fun totalOrders =>
      .ok ⟨200, .ordersB orders
        ⟨pageN, jsCeil (jsDiv (.num (totalOrders : ℚ)) limitN), totalOrders, limitN⟩⟩

/-- Handler of `GET /orders`: the `try` block wrapped in the `catch` clause. -/
def ordersListHandler (user? : Option User)
    (page? limit? status? dateRange? : Option String)
    (now startOfToday : Int) (db : DB) : Response :=
  catchWrap (tryOrdersList user? page? limit? status? dateRange? now startOfToday db)

/-! ### Helper lemmas -/

theorem runQuery_none {α : Type} (db : DB) (hdb : db.failAt = none) (i : Nat) (a : α) :
    runQuery db i a = .ok a := by
  simp [runQuery, hdb]

theorem revenueHead (l : List Order) :
    (match revenueAggregate l with | [] => (0 : ℚ) | t :: _ => t) = (l.map Order.total).sum := by
  cases l <;> simp [revenueAggregate]

/-- Output of `GET /summary` for an admin caller on a store that does not
fail, written in terms of the matching records. -/
theorem summaryHandler_admin (u : User) (hu : u.role = "admin") (dr? : Option String)
    (now sod : Int) (db : DB) (hdb : db.failAt = none) :
    summaryHandler (some u) dr? now sod db =
      ⟨200, .summaryB
        ⟨(matchingOrders db (getDateRange (some (dr?.getD "7days")) now sod)).length,
         toFixed2 ((matchingOrders db (getDateRange (some (dr?.getD "7days")) now sod)).map
           Order.total).sum,
         ((matchingOrders db (getDateRange (some (dr?.getD "7days")) now sod)).map
           Order.user_id).dedup.length⟩
        ⟨statusCount (statusAggregate
            (matchingOrders db (getDateRange (some (dr?.getD "7days")) now sod))) "Delivered", 0,
         statusCount (statusAggregate
            (matchingOrders db (getDateRange (some (dr?.getD "7days")) now sod))) "Placed",
         statusCount (statusAggregate
            (matchingOrders db (getDateRange (some (dr?.getD "7days")) now sod))) "Preparing"⟩⟩ := by
  simp [summaryHandler, trySummary, hu, runQuery_none db hdb, catchWrap, Except.bind, revenueHead]

/-- Output of `GET /orders-chart` for an admin caller on a store that does
not fail. -/
theorem ordersChartHandler_admin (u : User) (hu : u.role = "admin") (dr? : Option String)
    (now sod : Int) (db : DB) (hdb : db.failAt = none) :
    ordersChartHandler (some u) dr? now sod db =
      ⟨200, .chartB ((chartAggregate
          (matchingOrders db (getDateRange (some (dr?.getD "7days")) now sod))).map (fun g =>
        { date := g.id, orders := g.count, revenue := toFixed2 g.revenue }))⟩ := by
  simp [ordersChartHandler, tryOrdersChart, hu, runQuery_none db hdb, catchWrap, Except.bind]

/-- Output of `GET /orders` for an admin caller on a store that does not
fail. -/
theorem ordersListHandler_admin (u : User) (hu : u.role = "admin")
    (page? limit? status? dateRange? : Option String) (now sod : Int) (db : DB)
    (hdb : db.failAt = none) :
    ordersListHandler (some u) page? limit? status? dateRange? now sod db =
      ⟨200, .ordersB
        ((applyLimit ((sortDesc (db.orders.filter (ordersFilter
            (getDateRange (some (dateRange?.getD "7days")) now sod)
            (status?.getD "all")))).drop
              (jsToCount (ordersSkip (pageNum page?) (limitNum limit?)))) (limitNum limit?)).map
          (populateOrder db.users))
        ⟨pageNum page?,
         jsCeil (jsDiv (.num ((db.orders.filter (ordersFilter
            (getDateRange (some (dateRange?.getD "7days")) now sod)
            (status?.getD "all"))).length : ℚ)) (limitNum limit?)),
         (db.orders.filter (ordersFilter
            (getDateRange (some (dateRange?.getD "7days")) now sod)
            (status?.getD "all"))).length,
         limitNum limit?⟩⟩ := by
  simp [ordersListHandler, tryOrdersList, hu, runQuery_none db hdb, catchWrap, Except.bind]

/-! ### Claims -/

/-- C5: the date-range resolver maps `"today"` to the start of the current
local calendar day, `"7days"` to the current instant minus seven calendar
days, and every other token — including an absent one — to the epoch origin;
being a total function, it has no error cases. -/
theorem c5_date_range_resolver (now sod : Int) :
    getDateRange (some "today") now sod = sod ∧
    getDateRange (some "7days") now sod = now - 7 * msPerDay ∧
    ∀ r : Option String, r ≠ some "today" → r ≠ some "7days" → getDateRange r now sod = 0 := by
  refine ⟨rfl, rfl, fun r h1 h2 => ?_⟩
  simp [getDateRange, h1, h2]

/-- C5 witness: the resolver at concrete inputs, with the catch-all branch
exercised on an absent token. -/
theorem c5_date_range_resolver_witness :
    (none : Option String) ≠ some "today" ∧ (none : Option String) ≠ some "7days" ∧
    getDateRange none 5 3 = 0 :=
  ⟨by decide, by decide, (c5_date_range_resolver 5 3).2.2 none (by decide) (by decide)⟩

/-- C1: a caller whose role is not `"admin"` receives, from each of the
three endpoints, status 403 with body exactly `message "Admin access
required"` (no other field), and this holds for every store state — in
particular for a store whose very first query would throw, which shows the
rejection happens before any data-store query (count, aggregate, distinct or
find) is executed. -/
theorem c1_non_admin_forbidden (u : User) (h : u.role ≠ "admin")
    (dateRange? page? limit? status? : Option String) (now sod : Int) (db : DB) :
    summaryHandler (some u) dateRange? now sod db =
      ⟨403, .errorB "Admin access required" none⟩ ∧
    ordersChartHandler (some u) dateRange? now sod db =
      ⟨403, .errorB "Admin access required" none⟩ ∧
    ordersListHandler (some u) page? limit? status? dateRange? now sod db =
      ⟨403, .errorB "Admin access required" none⟩ := by
  refine ⟨?_, ?_, ?_⟩ <;>
    simp [summaryHandler, ordersChartHandler, ordersListHandler, trySummary, tryOrdersChart,
      tryOrdersList, catchWrap, h]

/-- C1 witness: a customer-role caller against a store that would fail on
its first query still gets the fixed 403 response from all three endpoints. -/
theorem c1_non_admin_forbidden_witness :
    (User.mk 1 "n" "e" "customer").role ≠ "admin" ∧
    (summaryHandler (some ⟨1, "n", "e", "customer"⟩) none 0 0 ⟨[], [], some 0, "boom"⟩ =
        ⟨403, .errorB "Admin access required" none⟩ ∧
      ordersChartHandler (some ⟨1, "n", "e", "customer"⟩) none 0 0 ⟨[], [], some 0, "boom"⟩ =
        ⟨403, .errorB "Admin access required" none⟩ ∧
      ordersListHandler (some ⟨1, "n", "e", "customer"⟩) none none none none 0 0
          ⟨[], [], some 0, "boom"⟩ =
        ⟨403, .errorB "Admin access required" none⟩) :=
  ⟨by decide, c1_non_admin_forbidden ⟨1, "n", "e", "customer"⟩ (by decide)
    none none none none 0 0 ⟨[], [], some 0, "boom"⟩⟩

/-- C10: a request reaching any of the three handlers with no attached
authenticated caller (`req.user` absent) is answered 500 with message
`"Server error"` — never 401 or 403 — because reading `.role` of the absent
caller throws inside the `try` block and the generic catch clause handles
it. -/
theorem c10_missing_user_500 (dateRange? page? limit? status? : Option String)
    (now sod : Int) (db : DB) :
    summaryHandler none dateRange? now sod db =
      ⟨500, .errorB "Server error" (some undefinedRoleMsg)⟩ ∧
    ordersChartHandler none dateRange? now sod db =
      ⟨500, .errorB "Server error" (some undefinedRoleMsg)⟩ ∧
    ordersListHandler none page? limit? status? dateRange? now sod db =
      ⟨500, .errorB "Server error" (some undefinedRoleMsg)⟩ :=
  ⟨rfl, rfl, rfl⟩

/-- C8: a data-store failure thrown at any query of any of the three
operations is not retried and yields exactly the 500 response carrying the
underlying message — a body with no data fields at all, so no partial result
is returned.  The query index ranges over every store query the operation
performs (4 for summary, 1 for the chart, 2 for the listing). -/
theorem c8_store_failure_500 (u : User) (hu : u.role = "admin")
    (dateRange? page? limit? status? : Option String) (now sod : Int)
    (orders : List Order) (users : List User) (i : Nat) (msg : String) :
    (i < 4 → summaryHandler (some u) dateRange? now sod ⟨orders, users, some i, msg⟩ =
      ⟨500, .errorB "Server error" (some msg)⟩) ∧
    (i < 1 → ordersChartHandler (some u) dateRange? now sod ⟨orders, users, some i, msg⟩ =
      ⟨500, .errorB "Server error" (some msg)⟩) ∧
    (i < 2 → ordersListHandler (some u) page? limit? status? dateRange? now sod
        ⟨orders, users, some i, msg⟩ =
      ⟨500, .errorB "Server error" (some msg)⟩) := by
  refine ⟨fun hi => ?_, fun hi => ?_, fun hi => ?_⟩ <;>
    interval_cases i <;>
    simp [summaryHandler, ordersChartHandler, ordersListHandler, trySummary, tryOrdersChart,
      tryOrdersList, catchWrap, hu, runQuery, Except.bind]

/-- C8 witness: an admin request against a store failing on its second
summary query is answered 500 with the failure message. -/
theorem c8_store_failure_500_witness :
    (User.mk 1 "n" "e" "admin").role = "admin" ∧
    (1 < 4 → summaryHandler (some ⟨1, "n", "e", "admin"⟩) none 0 0 ⟨[], [], some 1, "down"⟩ =
      ⟨500, .errorB "Server error" (some "down")⟩) :=
  ⟨rfl, (c8_store_failure_500 ⟨1, "n", "e", "admin"⟩ rfl none none none none 0 0 [] [] 1
    "down").1⟩

/-- C3 counterexample: the claim fails at limit `"0"` — a numeric value.  On
an empty store (totalOrders = 0) with page `"1"`, limit `"0"`, the handler
computes `Math.ceil(0 / 0) = NaN` as `totalPages`, not the claimed 0. -/
theorem c3_total_pages_counterexample :
    ordersListHandler (some ⟨1, "n", "e", "admin"⟩) (some "1") (some "0") none none 0 0
        ⟨[], [], none, ""⟩ =
      ⟨200, .ordersB [] ⟨.num 1, .nan, 0, .num 0⟩⟩ ∧ JsNum.nan ≠ JsNum.num 0 := by
  have hp : pageNum (some "1") = JsNum.num 1 := by decide
  have hl : limitNum (some "0") = JsNum.num 0 := by decide
  refine ⟨?_, by decide⟩
  rw [ordersListHandler_admin ⟨1, "n", "e", "admin"⟩ rfl (some "1") (some "0") none none 0 0
    ⟨[], [], none, ""⟩ rfl]
  simp [hp, hl, jsDiv, jsCeil, sortDesc, applyLimit]

/-- C3 (amended): for every request whose page and limit are numeric and
whose limit is nonzero, the pagination envelope satisfies
`totalPages = ceil(totalOrders / limit)` (hence 0 when totalOrders is 0),
and `currentPage` and `limit` echo the integer-parsed request values.  (With
limit 0 the code produces `NaN` or `Infinity` instead of the formula.) -/
theorem c3_pagination_envelope (u : User) (hu : u.role = "admin")
    (page? limit? status? dateRange? : Option String) (now sod : Int)
    (orders : List Order) (users : List User) (p l : ℚ)
    (hp : pageNum page? = .num p) (hl : limitNum limit? = .num l) (hl0 : l ≠ 0) :
    ordersListHandler (some u) page? limit? status? dateRange? now sod
        ⟨orders, users, none, ""⟩ =
      ⟨200, .ordersB
        ((applyLimit ((sortDesc (orders.filter (ordersFilter
            (getDateRange (some (dateRange?.getD "7days")) now sod)
            (status?.getD "all")))).drop
              (jsToCount (ordersSkip (.num p) (.num l)))) (.num l)).map
          (populateOrder users))
        ⟨.num p,
         .num (⌈((orders.filter (ordersFilter
            (getDateRange (some (dateRange?.getD "7days")) now sod)
            (status?.getD "all"))).length : ℚ) / l⌉ : ℚ),
         (orders.filter (ordersFilter
            (getDateRange (some (dateRange?.getD "7days")) now sod)
            (status?.getD "all"))).length,
         .num l⟩⟩ ∧
    ((orders.filter (ordersFilter
        (getDateRange (some (dateRange?.getD "7days")) now sod)
        (status?.getD "all"))).length = 0 →
      ((⌈((orders.filter (ordersFilter
          (getDateRange (some (dateRange?.getD "7days")) now sod)
          (status?.getD "all"))).length : ℚ) / l⌉ : ℚ) = 0)) := by
  rw [ordersListHandler_admin u hu page? limit? status? dateRange? now sod
    ⟨orders, users, none, ""⟩ rfl]
  refine ⟨?_, fun h0 => ?_⟩
  · simp [hp, hl, jsDiv, jsCeil, hl0]
  · simp [h0]

/-- C3 witness: page `"2"`, limit `"5"` on an empty store. -/
theorem c3_pagination_envelope_witness :
    (User.mk 1 "n" "e" "admin").role = "admin" ∧
    pageNum (some "2") = .num 2 ∧ limitNum (some "5") = .num 5 ∧ (5 : ℚ) ≠ 0 ∧
    (ordersListHandler (some ⟨1, "n", "e", "admin"⟩) (some "2") (some "5") none none 0 0
        ⟨[], [], none, ""⟩ =
      ⟨200, .ordersB
        ((applyLimit ((sortDesc (List.filter (ordersFilter
            (getDateRange (some ((none : Option String).getD "7days")) 0 0)
            ((none : Option String).getD "all")) [])).drop
              (jsToCount (ordersSkip (.num 2) (.num 5)))) (.num 5)).map
          (populateOrder []))
        ⟨.num 2,
         .num (⌈((List.filter (ordersFilter
            (getDateRange (some ((none : Option String).getD "7days")) 0 0)
            ((none : Option String).getD "all")) []).length : ℚ) / 5⌉ : ℚ),
         (List.filter (ordersFilter
            (getDateRange (some ((none : Option String).getD "7days")) 0 0)
            ((none : Option String).getD "all")) []).length,
         .num 5⟩⟩ ∧
    ((List.filter (ordersFilter
        (getDateRange (some ((none : Option String).getD "7days")) 0 0)
        ((none : Option String).getD "all")) []).length = 0 →
      ((⌈((List.filter (ordersFilter
          (getDateRange (some ((none : Option String).getD "7days")) 0 0)
          ((none : Option String).getD "all")) []).length : ℚ) / 5⌉ : ℚ) = 0))) :=
  ⟨rfl, by decide, by decide, by decide,
    c3_pagination_envelope ⟨1, "n", "e", "admin"⟩ rfl (some "2") (some "5") none none 0 0 [] [] 2 5
      (by decide) (by decide) (by decide)⟩

/-- C9 counterexample: with page `"abc"` (non-numeric) and limit `"10"`
(numeric), the echoed `limit` is 10 and `totalPages` is a number — the
claimed "all NaN" fails when only one of the two parameters is
non-numeric. -/
theorem c9_nan_counterexample :
    ordersListHandler (some ⟨1, "n", "e", "admin"⟩) (some "abc") (some "10") none none 0 0
        ⟨[], [], none, ""⟩ =
      ⟨200, .ordersB [] ⟨.nan, .num 0, 0, .num 10⟩⟩ ∧
    JsNum.num 10 ≠ JsNum.nan ∧ JsNum.num 0 ≠ JsNum.nan := by
  have hp : pageNum (some "abc") = JsNum.nan := by decide
  have hl : limitNum (some "10") = JsNum.num 10 := by decide
  refine ⟨?_, by decide, by decide⟩
  rw [ordersListHandler_admin ⟨1, "n", "e", "admin"⟩ rfl (some "abc") (some "10") none none 0 0
    ⟨[], [], none, ""⟩ rfl]
  simp [hp, hl, ordersSkip, jsSub, jsMul, jsDiv, jsCeil, jsToCount, sortDesc, applyLimit]

/-- C9 (amended): when page and limit are both non-numeric strings, this
layer produces no 400-class error: the request succeeds with status 200,
`parseInt` yields `NaN` for both, the computed skip value is `NaN`, and the
echoed `currentPage`, `limit` and `totalPages` in the built response are all
`NaN`.  (When only one of the two is non-numeric, only the fields derived
from it are `NaN` — see the counterexample.) -/
theorem c9_nan_pagination (u : User) (hu : u.role = "admin") (ps ls : String)
    (hp : parseIntJS ps = .nan) (hl : parseIntJS ls = .nan)
    (status? dateRange? : Option String) (now sod : Int)
    (orders : List Order) (users : List User) :
    ordersSkip (pageNum (some ps)) (limitNum (some ls)) = .nan ∧
    ordersListHandler (some u) (some ps) (some ls) status? dateRange? now sod
        ⟨orders, users, none, ""⟩ =
      ⟨200, .ordersB
        ((sortDesc (orders.filter (ordersFilter
            (getDateRange (some (dateRange?.getD "7days")) now sod)
            (status?.getD "all")))).map (populateOrder users))
        ⟨.nan, .nan,
         (orders.filter (ordersFilter
            (getDateRange (some (dateRange?.getD "7days")) now sod)
            (status?.getD "all"))).length,
         .nan⟩⟩ := by
  constructor
  · simp [ordersSkip, pageNum, limitNum, hp, hl, jsSub, jsMul]
  · rw [ordersListHandler_admin u hu (some ps) (some ls) status? dateRange? now sod
      ⟨orders, users, none, ""⟩ rfl]
    simp [pageNum, limitNum, hp, hl, ordersSkip, jsSub, jsMul, jsDiv, jsCeil, jsToCount,
      applyLimit]

/-- C9 witness: page `"abc"`, limit `"xyz"` on an empty store. -/
theorem c9_nan_pagination_witness :
    (User.mk 1 "n" "e" "admin").role = "admin" ∧
    parseIntJS "abc" = .nan ∧ parseIntJS "xyz" = .nan ∧
    (ordersSkip (pageNum (some "abc")) (limitNum (some "xyz")) = .nan ∧
     ordersListHandler (some ⟨1, "n", "e", "admin"⟩) (some "abc") (some "xyz") none none 0 0
        ⟨[], [], none, ""⟩ =
      ⟨200, .ordersB
        ((sortDesc (List.filter (ordersFilter
            (getDateRange (some ((none : Option String).getD "7days")) 0 0)
            ((none : Option String).getD "all")) [])).map (populateOrder []))
        ⟨.nan, .nan,
         (List.filter (ordersFilter
            (getDateRange (some ((none : Option String).getD "7days")) 0 0)
            ((none : Option String).getD "all")) []).length,
         .nan⟩⟩) :=
  ⟨rfl, by decide, by decide,
    c9_nan_pagination ⟨1, "n", "e", "admin"⟩ rfl "abc" "xyz" (by decide) (by decide)
      none none 0 0 [] []⟩

theorem find?_map_keyed (L : List String) (f : String → Nat) (k : String) :
    (L.map (fun s => (s, f s))).find? (fun p => p.1 == k) =
      if k ∈ L then some (k, f k) else none := by
  induction L with
  | nil => simp
  | cons a L ih =>
    by_cases hak : a = k
    · subst hak
      rw [List.map_cons, List.find?_cons_of_pos _ (by simp)]
      simp
    · rw [List.map_cons, List.find?_cons_of_neg _ (by simp [hak]), ih]
      simp [Ne.symm hak]

/-- Looking a status up in the breakdown yields its number of occurrences
among the aggregated records (0 when it never occurs). -/
theorem statusCount_statusAggregate (l : List Order) (k : String) :
    statusCount (statusAggregate l) k = l.countP (fun o => o.status == k) := by
  unfold statusCount statusAggregate
  rw [find?_map_keyed]
  by_cases hk : k ∈ (l.map Order.status).dedup
  · simp [hk]
  · rw [if_neg hk]
    rw [List.mem_dedup] at hk
    refine Eq.symm (List.countP_eq_zero.mpr fun o ho => ?_)
    simp only [beq_iff_eq]
    exact fun h => hk (h ▸ List.mem_map_of_mem Order.status ho)

theorem countP_three_statuses_le (l : List Order) :
    l.countP (fun o => o.status == "Delivered") + l.countP (fun o => o.status == "Placed") +
      l.countP (fun o => o.status == "Preparing") ≤ l.length := by
  induction l with
  | nil => simp
  | cons o l ih =>
    simp only [List.countP_cons, List.length_cons]
    by_cases h1 : o.status = "Delivered" <;> by_cases h2 : o.status = "Placed" <;>
      by_cases h3 : o.status = "Preparing" <;> simp_all <;> omega

/-- C6: in every summary response the three materialised status counts never
exceed the total order count for the same window, and the `cancelled` field
is hard-coded to 0 whatever the data. -/
theorem c6_status_breakdown (u : User) (hu : u.role = "admin") (dateRange? : Option String)
    (now sod : Int) (orders : List Order) (users : List User) (s : Summary)
    (os : OrderStatusCounts)
    (h : summaryHandler (some u) dateRange? now sod ⟨orders, users, none, ""⟩ =
      ⟨200, .summaryB s os⟩) :
    os.cancelled = 0 ∧ os.completed + os.placed + os.preparing ≤ s.totalOrders := by
  rw [summaryHandler_admin u hu dateRange? now sod ⟨orders, users, none, ""⟩ rfl] at h
  simp only [Response.mk.injEq, Body.summaryB.injEq, true_and] at h
  obtain ⟨hs, hos⟩ := h
  subst hs hos
  refine ⟨rfl, ?_⟩
  simp only [statusCount_statusAggregate]
  exact countP_three_statuses_le _

/-- C6 witness: the invariant instantiated on a concrete (empty) store. -/
theorem c6_status_breakdown_witness :
    (User.mk 1 "n" "e" "admin").role = "admin" ∧
    summaryHandler (some ⟨1, "n", "e", "admin"⟩) none 0 0 ⟨[], [], none, ""⟩ =
      ⟨200, .summaryB ⟨0, toFixed2 0, 0⟩ ⟨0, 0, 0, 0⟩⟩ ∧
    ((0 : Nat) = 0 ∧ (0 : Nat) + 0 + 0 ≤ 0) :=
  ⟨rfl, rfl, c6_status_breakdown ⟨1, "n", "e", "admin"⟩ rfl none 0 0 [] []
    ⟨0, toFixed2 0, 0⟩ ⟨0, 0, 0, 0⟩ rfl⟩

/-- C2: the revenue figures of the summary and of every chart point are the
exact underlying sums rounded to two decimal places, and on a store whose
matching orders have totals 10.005, 5.00 and 0 the summary reports
`totalOrders = 3` and `totalRevenue = 15.01`. -/
theorem c2_revenue_rounded (u : User) (hu : u.role = "admin") (dateRange? : Option String)
    (now sod : Int) (orders : List Order) (users : List User) :
    (∀ s os, summaryHandler (some u) dateRange? now sod ⟨orders, users, none, ""⟩ =
        ⟨200, .summaryB s os⟩ →
      s.totalRevenue = toFixed2 ((matchingOrders ⟨orders, users, none, ""⟩
        (getDateRange (some (dateRange?.getD "7days")) now sod)).map Order.total).sum) ∧
    (∀ pts, ordersChartHandler (some u) dateRange? now sod ⟨orders, users, none, ""⟩ =
        ⟨200, .chartB pts⟩ →
      ∀ pt ∈ pts, pt.revenue = toFixed2 (((matchingOrders ⟨orders, users, none, ""⟩
        (getDateRange (some (dateRange?.getD "7days")) now sod)).filter
          (fun o => dayKey o.createdAt == pt.date)).map Order.total).sum) ∧
    (((matchingOrders ⟨orders, users, none, ""⟩
        (getDateRange (some (dateRange?.getD "7days")) now sod)).map Order.total).Perm
          [10.005, 5, 0] →
      ∀ s os, summaryHandler (some u) dateRange? now sod ⟨orders, users, none, ""⟩ =
        ⟨200, .summaryB s os⟩ → s.totalOrders = 3 ∧ s.totalRevenue = 15.01) := by
  have hsum : ∀ s os, summaryHandler (some u) dateRange? now sod ⟨orders, users, none, ""⟩ =
      ⟨200, .summaryB s os⟩ →
      s = ⟨(matchingOrders ⟨orders, users, none, ""⟩
            (getDateRange (some (dateRange?.getD "7days")) now sod)).length,
          toFixed2 ((matchingOrders ⟨orders, users, none, ""⟩
            (getDateRange (some (dateRange?.getD "7days")) now sod)).map Order.total).sum,
          ((matchingOrders ⟨orders, users, none, ""⟩
            (getDateRange (some (dateRange?.getD "7days")) now sod)).map
              Order.user_id).dedup.length⟩ := by
    intro s os h
    rw [summaryHandler_admin u hu dateRange? now sod ⟨orders, users, none, ""⟩ rfl] at h
    simp only [Response.mk.injEq, Body.summaryB.injEq, true_and] at h
    exact h.1.symm
  refine ⟨fun s os h => by rw [hsum s os h], fun pts h pt hpt => ?_, fun hperm s os h => ?_⟩
  · rw [ordersChartHandler_admin u hu dateRange? now sod ⟨orders, users, none, ""⟩ rfl] at h
    simp only [Response.mk.injEq, Body.chartB.injEq, true_and] at h
    subst h
    simp only [List.mem_map] at hpt
    obtain ⟨g, hg, hpt⟩ := hpt
    subst hpt
    rw [chartAggregate, List.mem_insertionSort, List.mem_map] at hg
    obtain ⟨d, _, hg⟩ := hg
    subst hg
    rfl
  · have h3 : s.totalOrders = 3 := by
      rw [hsum s os h]
      have := hperm.length_eq
      simpa using this
    refine ⟨h3, ?_⟩
    rw [hsum s os h]
    rw [hperm.sum_eq]
    norm_num [toFixed2]

/-- C2 witness: a concrete store of three matching orders with totals
10.005, 5.00 and 0 placed by two distinct users. -/
theorem c2_revenue_rounded_witness :
    (User.mk 1 "n" "e" "admin").role = "admin" ∧
    ((matchingOrders ⟨[⟨7, 10.005, "Placed", 1⟩, ⟨7, 5, "Delivered", 2⟩, ⟨8, 0, "Placed", 3⟩],
        [], none, ""⟩ (getDateRange (some ((none : Option String).getD "7days")) 0 0)).map
          Order.total).Perm [10.005, 5, 0] ∧
    (∀ s os, summaryHandler (some ⟨1, "n", "e", "admin"⟩) none 0 0
        ⟨[⟨7, 10.005, "Placed", 1⟩, ⟨7, 5, "Delivered", 2⟩, ⟨8, 0, "Placed", 3⟩], [], none, ""⟩ =
        ⟨200, .summaryB s os⟩ → s.totalOrders = 3 ∧ s.totalRevenue = 15.01) := by
  have hperm : ((matchingOrders ⟨[⟨7, 10.005, "Placed", 1⟩, ⟨7, 5, "Delivered", 2⟩,
      ⟨8, 0, "Placed", 3⟩], [], none, ""⟩
      (getDateRange (some ((none : Option String).getD "7days")) 0 0)).map
        Order.total).Perm [10.005, 5, 0] := by
    simp [matchingOrders, inRange, getDateRange, msPerDay]
  exact ⟨rfl, hperm,
    (c2_revenue_rounded ⟨1, "n", "e", "admin"⟩ rfl none 0 0
      [⟨7, 10.005, "Placed", 1⟩, ⟨7, 5, "Delivered", 2⟩, ⟨8, 0, "Placed", 3⟩] []).2.2 hperm⟩

/-- The date keys of the aggregated chart groups, before sorting, are the
deduplicated day keys of the input. -/
theorem chartAggregate_map_id (l : List Order) :
    ((chartAggregate l).map DayGroup.id).Perm ((l.map (fun o => dayKey o.createdAt)).dedup) := by
  have h1 : ((chartAggregate l).map DayGroup.id).Perm
      ((((l.map (fun o => dayKey o.createdAt)).dedup).map (fun d =>
        ({ id := d
           count := l.countP (fun o => dayKey o.createdAt == d)
           revenue := ((l.filter (fun o => dayKey o.createdAt == d)).map Order.total).sum } :
          DayGroup))).map DayGroup.id) :=
    (List.perm_insertionSort dayGroupLe _).map DayGroup.id
  refine h1.trans ?_
  rw [List.map_map]
  have h2 : List.map (DayGroup.id ∘ fun d =>
      ({ id := d
         count := l.countP (fun o => dayKey o.createdAt == d)
         revenue := ((l.filter (fun o => dayKey o.createdAt == d)).map Order.total).sum } :
        DayGroup)) ((l.map (fun o => dayKey o.createdAt)).dedup) =
      (l.map (fun o => dayKey o.createdAt)).dedup := by
    show List.map (fun d => d) ((l.map (fun o => dayKey o.createdAt)).dedup) =
      (l.map (fun o => dayKey o.createdAt)).dedup
    simp
  rw [h2]

/-- C7: the chart sequence is sorted non-decreasing by its date key, has
exactly one point per distinct calendar day with at least one matching
order, and is empty — with a 200 response, not an error — when no order
matches. -/
theorem c7_chart_points (u : User) (hu : u.role = "admin") (dateRange? : Option String)
    (now sod : Int) (orders : List Order) (users : List User) (pts : List ChartPoint)
    (h : ordersChartHandler (some u) dateRange? now sod ⟨orders, users, none, ""⟩ =
      ⟨200, .chartB pts⟩) :
    List.Sorted (· ≤ ·) (pts.map ChartPoint.date) ∧
    (pts.map ChartPoint.date).Nodup ∧
    (∀ d : Int, d ∈ pts.map ChartPoint.date ↔
      ∃ o ∈ matchingOrders ⟨orders, users, none, ""⟩
        (getDateRange (some (dateRange?.getD "7days")) now sod), dayKey o.createdAt = d) ∧
    (matchingOrders ⟨orders, users, none, ""⟩
        (getDateRange (some (dateRange?.getD "7days")) now sod) = [] → pts = []) := by
  rw [ordersChartHandler_admin u hu dateRange? now sod ⟨orders, users, none, ""⟩ rfl] at h
  simp only [Response.mk.injEq, Body.chartB.injEq, true_and] at h
  subst h
  have hdates : (List.map ChartPoint.date ((chartAggregate (matchingOrders
      ⟨orders, users, none, ""⟩ (getDateRange (some (dateRange?.getD "7days")) now sod))).map
        (fun g => ({ date := g.id, orders := g.count, revenue := toFixed2 g.revenue } :
          ChartPoint)))) =
      (chartAggregate (matchingOrders ⟨orders, users, none, ""⟩
        (getDateRange (some (dateRange?.getD "7days")) now sod))).map DayGroup.id := by
    rw [List.map_map]; rfl
  have hperm := chartAggregate_map_id (matchingOrders ⟨orders, users, none, ""⟩
    (getDateRange (some (dateRange?.getD "7days")) now sod))
  refine ⟨?_, ?_, ?_, ?_⟩
  · rw [hdates]
    exact List.Pairwise.map DayGroup.id (fun _ _ hab => hab)
      (List.sorted_insertionSort dayGroupLe _)
  · rw [hdates]
    exact hperm.nodup_iff.mpr (List.nodup_dedup _)
  · intro d
    rw [hdates, hperm.mem_iff, List.mem_dedup, List.mem_map]
  · intro hempty
    rw [hempty]
    rfl

/-- C7 witness: a concrete store with no matching order yields the empty
chart. -/
theorem c7_chart_points_witness :
    (User.mk 1 "n" "e" "admin").role = "admin" ∧
    ordersChartHandler (some ⟨1, "n", "e", "admin"⟩) none 0 0 ⟨[], [], none, ""⟩ =
      ⟨200, .chartB []⟩ ∧
    (matchingOrders ⟨[], [], none, ""⟩
        (getDateRange (some ((none : Option String).getD "7days")) 0 0) = [] →
      ([] : List ChartPoint) = []) :=
  ⟨rfl, rfl, (c7_chart_points ⟨1, "n", "e", "admin"⟩ rfl none 0 0 [] [] [] rfl).2.2.2⟩

theorem jsToCount_natCast (n : ℕ) : jsToCount (.num (n : ℚ)) = n := by
  simp [jsToCount]

theorem ordersSkip_natCast (p l : ℕ) (hp : 1 ≤ p) :
    ordersSkip (.num (p : ℚ)) (.num (l : ℚ)) = .num (((p - 1) * l : ℕ) : ℚ) := by
  simp only [ordersSkip, jsSub, jsMul, JsNum.num.injEq]
  rw [Nat.cast_mul, Nat.cast_sub hp, Nat.cast_one]

theorem applyLimit_natCast {α : Type} (xs : List α) (l : ℕ) (hl : l ≠ 0) :
    applyLimit xs (.num (l : ℚ)) = xs.take l := by
  simp [applyLimit, hl]

theorem sortDesc_length (l : List Order) : (sortDesc l).length = l.length :=
  (List.perm_insertionSort newestFirst l).length_eq

/-- C4: for a numeric page ≥ 1 and limit ≥ 1, the listing returns exactly
the window of the date/status-matching records sorted newest first that
skips `(page-1)*limit` records and takes `limit`, with the user reference of
each record resolved by `populateOrder` to name and email only; the returned
slice is itself sorted newest first; and on 25 matching records with
page 3, limit 10 the envelope reports 3 total pages and the 5 records
ranked 21 to 25 are returned. -/
theorem c4_orders_page_slice (u : User) (hu : u.role = "admin")
    (page? limit? status? dateRange? : Option String) (now sod : Int)
    (orders : List Order) (users : List User) (p l : ℕ)
    (hp : pageNum page? = .num (p : ℚ)) (hl : limitNum limit? = .num (l : ℚ))
    (hp1 : 1 ≤ p) (hl1 : 1 ≤ l) :
    ordersListHandler (some u) page? limit? status? dateRange? now sod
        ⟨orders, users, none, ""⟩ =
      ⟨200, .ordersB
        ((((sortDesc (orders.filter (ordersFilter
            (getDateRange (some (dateRange?.getD "7days")) now sod)
            (status?.getD "all")))).drop ((p - 1) * l)).take l).map (populateOrder users))
        ⟨.num (p : ℚ),
         jsCeil (jsDiv (.num ((orders.filter (ordersFilter
            (getDateRange (some (dateRange?.getD "7days")) now sod)
            (status?.getD "all"))).length : ℚ)) (.num (l : ℚ))),
         (orders.filter (ordersFilter
            (getDateRange (some (dateRange?.getD "7days")) now sod)
            (status?.getD "all"))).length,
         .num (l : ℚ)⟩⟩ ∧
    List.Sorted (fun a b : PopulatedOrder => b.createdAt ≤ a.createdAt)
      ((((sortDesc (orders.filter (ordersFilter
          (getDateRange (some (dateRange?.getD "7days")) now sod)
          (status?.getD "all")))).drop ((p - 1) * l)).take l).map (populateOrder users)) ∧
    ((orders.filter (ordersFilter
        (getDateRange (some (dateRange?.getD "7days")) now sod)
        (status?.getD "all"))).length = 25 → p = 3 → l = 10 →
      jsCeil (jsDiv (.num ((orders.filter (ordersFilter
          (getDateRange (some (dateRange?.getD "7days")) now sod)
          (status?.getD "all"))).length : ℚ)) (.num (l : ℚ))) = .num 3 ∧
      (((((sortDesc (orders.filter (ordersFilter
          (getDateRange (some (dateRange?.getD "7days")) now sod)
          (status?.getD "all")))).drop ((p - 1) * l)).take l).map
            (populateOrder users)).length = 5) ∧
      ((((sortDesc (orders.filter (ordersFilter
          (getDateRange (some (dateRange?.getD "7days")) now sod)
          (status?.getD "all")))).drop ((p - 1) * l)).take l).map (populateOrder users) =
        ((sortDesc (orders.filter (ordersFilter
          (getDateRange (some (dateRange?.getD "7days")) now sod)
          (status?.getD "all")))).drop 20).map (populateOrder users))) := by
  have hslice : applyLimit ((sortDesc (orders.filter (ordersFilter
      (getDateRange (some (dateRange?.getD "7days")) now sod)
      (status?.getD "all")))).drop
        (jsToCount (ordersSkip (pageNum page?) (limitNum limit?)))) (limitNum limit?) =
      ((sortDesc (orders.filter (ordersFilter
        (getDateRange (some (dateRange?.getD "7days")) now sod)
        (status?.getD "all")))).drop ((p - 1) * l)).take l := by
    rw [hp, hl, ordersSkip_natCast p l hp1, jsToCount_natCast,
      applyLimit_natCast _ l (by omega)]
  refine ⟨?_, ?_, fun h25 hp3 hl10 => ?_⟩
  · rw [ordersListHandler_admin u hu page? limit? status? dateRange? now sod
      ⟨orders, users, none, ""⟩ rfl, hslice, hp, hl]
  · have hsorted : List.Sorted newestFirst (sortDesc (orders.filter (ordersFilter
        (getDateRange (some (dateRange?.getD "7days")) now sod)
        (status?.getD "all")))) := List.sorted_insertionSort newestFirst _
    have hsub : (((sortDesc (orders.filter (ordersFilter
        (getDateRange (some (dateRange?.getD "7days")) now sod)
        (status?.getD "all")))).drop ((p - 1) * l)).take l).Sublist
          (sortDesc (orders.filter (ordersFilter
        (getDateRange (some (dateRange?.getD "7days")) now sod)
        (status?.getD "all")))) :=
      (List.take_sublist _ _).trans (List.drop_sublist _ _)
    exact List.Pairwise.map (populateOrder users) (fun _ _ hab => hab)
      (List.Pairwise.sublist hsub hsorted)
  · subst hp3 hl10
    have hc : ⌈((25 : ℕ) : ℚ) / ((10 : ℕ) : ℚ)⌉ = (3 : ℤ) := by
      have h52 : ((25 : ℕ) : ℚ) / ((10 : ℕ) : ℚ) = 5 / 2 := by norm_num
      rw [h52, Int.ceil_eq_iff]; norm_num
    have h20 : (3 - 1) * 10 = 20 := by norm_num
    refine ⟨?_, ?_, ?_⟩
    · rw [h25]
      simp only [jsDiv]
      rw [if_neg (by norm_num)]
      simp only [jsCeil]
      rw [hc]
      norm_num
    · rw [List.length_map, List.length_take, List.length_drop, sortDesc_length, h25, h20]
      omega
    · rw [h20, List.take_of_length_le]
      rw [List.length_drop, sortDesc_length, h25]
      omega

/-- C4 witness: page `"3"`, limit `"10"` on an empty store (the 25-record
scenario is an implication inside the conclusion). -/
theorem c4_orders_page_slice_witness :
    (User.mk 1 "n" "e" "admin").role = "admin" ∧
    pageNum (some "3") = .num ((3 : ℕ) : ℚ) ∧ limitNum (some "10") = .num ((10 : ℕ) : ℚ) ∧
    (1 : ℕ) ≤ 3 ∧ (1 : ℕ) ≤ 10 ∧
    ordersListHandler (some ⟨1, "n", "e", "admin"⟩) (some "3") (some "10") none none 0 0
        ⟨[], [], none, ""⟩ =
      ⟨200, .ordersB
        ((((sortDesc (List.filter (ordersFilter
            (getDateRange (some ((none : Option String).getD "7days")) 0 0)
            ((none : Option String).getD "all")) [])).drop ((3 - 1) * 10)).take 10).map
          (populateOrder []))
        ⟨.num ((3 : ℕ) : ℚ),
         jsCeil (jsDiv (.num ((List.filter (ordersFilter
            (getDateRange (some ((none : Option String).getD "7days")) 0 0)
            ((none : Option String).getD "all")) []).length : ℚ)) (.num ((10 : ℕ) : ℚ))),
         (List.filter (ordersFilter
            (getDateRange (some ((none : Option String).getD "7days")) 0 0)
            ((none : Option String).getD "all")) []).length,
         .num ((10 : ℕ) : ℚ)⟩⟩ :=
  ⟨rfl, by decide, by decide, by decide, by decide,
    (c4_orders_page_slice ⟨1, "n", "e", "admin"⟩ rfl (some "3") (some "10") none none 0 0
      [] [] 3 10 (by decide) (by decide) (by decide) (by decide)).1⟩

end BackendDelivery
